import Mathlib

/-!
Verification of the httphandler package (lag13/httphandler) against its
natural-language specification. The Go source (httphandler.go) is embedded
shallowly: the Presenter and ErrPresenter interfaces become plain Lean
functions, the component structs become Lean structures with the same field
names, and each PresentHTTP / ServeHTTP method becomes a Lean function that
mirrors the Go method body line by line.

Modelling conventions:
- Go error values are modelled by their message string; a Go nil error is
  Option.none.
- Go callback fields of function type are modelled as Option-valued: a nil
  function field is none. Calling a nil Go function value panics at run time,
  so an embedded operation that reaches such a call returns
  Except.error GoPanic.nilFunctionCall instead of a normal result; side
  effects of a configured callback are recorded as a trace of the argument
  pairs the callback was invoked with.
- http.Header (map from string to slice of string) is modelled as an
  association list; Go map iteration order is unspecified, the list order
  stands in for it, and no claim below depends on the cross-key order.
- The outbound http.ResponseWriter is an external collaborator; it is
  modelled by the explicit state ResponseWriter with the operations the
  Writer component uses (Header().Add, WriteHeader, Write), following the
  documented behavior of the transport: Add appends a name/value pair,
  WriteHeader commits a status code once, and Write implicitly commits 200
  when nothing was committed yet. Whether the body write fails is decided by
  the external transport, so the write outcome is an explicit input of the
  embedded ServeHTTP.
-/

namespace Httphandler

/-- The inbound request boundary: the fields of the Go *http.Request that
this package reads (the method for dispatch, the value itself for the
callbacks). -/
structure Request where
  method : String
  url : String
deriving DecidableEq, Repr

/-- A Go error value, modelled by its message; a nil Go error is none at
use sites. -/
abbrev Err := String

/-- Response will ultimately get written to the wire in response to a
request (httphandler.go lines 11-15). StatusCode is a Go int, Headers a
map from header name to the slice of its values, Body an opaque byte
sequence. -/
structure Response where
  StatusCode : Int
  Headers : List (String × List String)
  Body : String
deriving DecidableEq, Repr

/-- The Presenter interface (httphandler.go lines 20-22): given a request,
produce a Response. PresenterFunc lets any such function be a Presenter, so
the capability is modelled directly as a function type. -/
abbrev Presenter := Request → Response

/-- The ErrPresenter interface (httphandler.go lines 103-105): given a
request, produce a (Response, error) pair; none is a nil error. -/
abbrev ErrPresenter := Request → Response × Option Err

/-- A Go run-time panic that the embedded operations can hit. Calling a
function field whose value is nil is the only panic source the claims
exercise. -/
inductive GoPanic where
  | nilFunctionCall
deriving DecidableEq, Repr

/-- State of the outbound http.ResponseWriter: the log of header name/value
pairs added (in order), the committed status line, and the body bytes
written so far. -/
structure ResponseWriter where
  headerLog : List (String × String)
  committedStatus : Option Int
  writtenBody : String
deriving DecidableEq, Repr

/-- A fresh per-request outbound channel: no headers, no committed status,
no body. -/
def ResponseWriter.init : ResponseWriter := ⟨[], none, ""⟩

/-- w.Header().Add(name, value): records one more value for the header
name, appended after everything recorded before. -/
def ResponseWriter.headerAdd (w : ResponseWriter) (name value : String) : ResponseWriter :=
  { w with headerLog := w.headerLog ++ [(name, value)] }

/-- w.WriteHeader(code): commits the status line; a second call changes
nothing (the transport commits the status exactly once). -/
def ResponseWriter.writeHeader (w : ResponseWriter) (code : Int) : ResponseWriter :=
  match w.committedStatus with
  | some _ => w
  | none => { w with committedStatus := some code }

/-- w.Write(b): attempts to write the body bytes. The external transport
decides the outcome, so it is passed in: on success the bytes are appended
(committing status 200 first if none was committed, the transport's
implicit-200 convention) and nil is returned; on failure the error is
returned. -/
def ResponseWriter.write (w : ResponseWriter) (b : String) (outcome : Option Err) :
    ResponseWriter × Option Err :=
  match outcome with
  | some e => (w, some e)
  | none =>
      ({ w with
          committedStatus := some (w.committedStatus.getD 200),
          writtenBody := w.writtenBody ++ b }, none)

/-- The inner loop of Writer.ServeHTTP (httphandler.go lines 35-39): add
every value of one header name, in slice order. -/
def addValues (name : String) (vs : List String) (w : ResponseWriter) : ResponseWriter :=
  match vs with
  | [] => w
  | v :: vs => addValues name vs (w.headerAdd name v)

/-- The outer loop of Writer.ServeHTTP (httphandler.go lines 35-39): add
every header name/value pair of the response. -/
def addHeaders (hs : List (String × List String)) (w : ResponseWriter) : ResponseWriter :=
  match hs with
  | [] => w
  | p :: hs => addHeaders hs (addValues p.1 p.2 w)

/-- Writer (httphandler.go lines 27-30): writes the response received from
a Presenter; WriteFailedFn is a nil-able function field. -/
structure Writer where
  Presenter : Httphandler.Presenter
  WriteFailedFn : Option (Request → Err → Unit)

/-- Writer.ServeHTTP (httphandler.go lines 33-51): obtain the response,
add all its headers, substitute 200 for a zero status code, write the
status line, write the body, and on a failed write call WriteFailedFn with
the request and the error. A nil WriteFailedFn makes that call a nil
function call, hence a panic. The returned trace lists the invocations of
WriteFailedFn with their arguments. -/
def Writer.ServeHTTP (h : Writer) (w : ResponseWriter) (r : Request) (outcome : Option Err) :
    Except GoPanic (ResponseWriter × List (Request × Err)) :=
  match ((addHeaders (h.Presenter r).Headers w).writeHeader
      (if (h.Presenter r).StatusCode = 0 then 200 else (h.Presenter r).StatusCode)).write
      (h.Presenter r).Body outcome with
  | (w2, none) => Except.ok (w2, [])
  | (w2, some e) =>
      match h.WriteFailedFn with
      | some _ => Except.ok (w2, [(r, e)])
      | none => Except.error GoPanic.nilFunctionCall

/-- DefaultResp (httphandler.go lines 57-60): a Presenter which produces a
response or a default response. -/
structure DefaultResp where
  Presenter : Httphandler.Presenter
  DefaultPresenter : Httphandler.Presenter

/-- DefaultResp.PresentHTTP (httphandler.go lines 65-71): return the first
Presenter's response unless its status code is 0, in which case return the
DefaultPresenter's response. -/
def DefaultResp.PresentHTTP (d : DefaultResp) (r : Request) : Response :=
  if (d.Presenter r).StatusCode ≠ 0 then d.Presenter r
  else d.DefaultPresenter r

/-- Dispatcher (httphandler.go lines 75-78): a Presenter which dispatches
to another Presenter based on the http method. The Go map is an association
list with the exact-string lookup of Go maps. -/
structure Dispatcher where
  MethodToPresenter : List (String × Httphandler.Presenter)
  MethodNotSupportedPres : Httphandler.Presenter

/-- Dispatcher.PresentHTTP (httphandler.go lines 83-89): look the request
method up in the mapping; on a miss delegate to MethodNotSupportedPres. -/
def Dispatcher.PresentHTTP (d : Dispatcher) (r : Request) : Response :=
  match d.MethodToPresenter.lookup r.method with
  | some p => p r
  | none => d.MethodNotSupportedPres r

/-- ErrHandler (httphandler.go lines 108-111): a Presenter that deals with
errors; OnErrFn is a nil-able function field. -/
structure ErrHandler where
  ErrPresenter : Httphandler.ErrPresenter
  OnErrFn : Option (Request → Err → Unit)

/-- ErrHandler.PresentHTTP (httphandler.go lines 116-122): obtain
(resp, err) from the ErrPresenter; if err is non-nil call OnErrFn with the
request and the error (a panic when OnErrFn is nil); return resp. The
returned trace lists the invocations of OnErrFn with their arguments. -/
def ErrHandler.PresentHTTP (e : ErrHandler) (r : Request) :
    Except GoPanic (Response × List (Request × Err)) :=
  match (e.ErrPresenter r).2, e.OnErrFn with
  | none, _ => Except.ok ((e.ErrPresenter r).1, [])
  | some err, some _ => Except.ok ((e.ErrPresenter r).1, [(r, err)])
  | some _, none => Except.error GoPanic.nilFunctionCall

/-- Modelled from the spec: the ErrorAdapter of section 4.3 with its
optionally configured fallback ResponseProducer. The repository version of
ErrHandler carrying this fallback field (called DefaultPres in the test
file TestErrHandler and RespWhenErr in an older example) is not among the
source files; only its tests and callers are, so the operation is modelled
from the spec's words: obtain (resp, err) from the wrapped fallible
producer; if err is present invoke the configured error callback with the
request and the error (a documented no-op when the callback is absent);
if resp has non-zero status return resp unchanged, otherwise return the
configured fallback producer's output, or resp as-is when no fallback is
configured. The second component is the trace of error-callback
invocations. -/
structure ErrorAdapter where
  ErrPresenter : Httphandler.ErrPresenter
  OnErrFn : Option (Request → Err → Unit)
  DefaultPres : Option Httphandler.Presenter

/-- Modelled from the spec: the produce operation of the section 4.3
ErrorAdapter (see the ErrorAdapter structure comment). -/
def ErrorAdapter.PresentHTTP (e : ErrorAdapter) (r : Request) :
    Response × List (Request × Err) :=
  let trace := match (e.ErrPresenter r).2, e.OnErrFn with
    | some err, some _ => [(r, err)]
    | _, _ => []
  if (e.ErrPresenter r).1.StatusCode ≠ 0 then ((e.ErrPresenter r).1, trace)
  else
    match e.DefaultPres with
    | some p => (p r, trace)
    | none => ((e.ErrPresenter r).1, trace)

/-- The name/value pairs a response header map unrolls to, one pair per
value, in iteration order: what the two nested loops of Writer.ServeHTTP
add to the outbound channel. -/
def flatPairs : List (String × List String) → List (String × String)
  | [] => []
  | p :: hs => p.2.map (fun v => (p.1, v)) ++ flatPairs hs

/-- The sequence of values an outbound header log records for one header
name, in the order they were added. -/
def valuesFor (name : String) (log : List (String × String)) : List String :=
  (log.filter (fun p => p.1 == name)).map Prod.snd

/-- The composition the package example (newHandler) builds: a DefaultResp
whose primary presenter is a Dispatcher over the given mapping. Used to
state the two-run determinism claim over a composed producer tree. -/
def newHandlerTower (m : List (String × Httphandler.Presenter))
    (notSup defP : Httphandler.Presenter) : Presenter :=
  fun r => DefaultResp.PresentHTTP ⟨fun r2 => Dispatcher.PresentHTTP ⟨m, notSup⟩ r2, defP⟩ r

/-- A sample GET request used by the witnesses. -/
def getReq : Request := ⟨"GET", "/hello"⟩

/-- The same path with a lower-case method, to exhibit case-sensitive
dispatch. -/
def lowerGetReq : Request := ⟨"get", "/hello"⟩

/-- The spec scenario adapter: wrapped producer returns a zero-status empty
response together with the error boom; the error callback is configured;
the fallback producer returns status 500 with body oops. -/
def boomAdapter : ErrorAdapter :=
  ⟨fun _ => (⟨0, [], ""⟩, some "boom"), some fun _ _ => (), some fun _ => ⟨500, [], "oops"⟩⟩

/-- A Writer with no write-failure callback configured whose producer
returns the zero-status response with body hi. -/
def hiWriter : Writer := ⟨fun _ => ⟨0, [], "hi"⟩, none⟩

/-- A Writer whose producer sets header X to the two values a and b. -/
def xHeaderWriter : Writer := ⟨fun _ => ⟨200, [("X", ["a", "b"])], ""⟩, none⟩

/-- A DefaultResp whose primary presenter opts out with status 0 and whose
default presenter answers 500 oops. -/
def zeroThenOops : DefaultResp := ⟨fun _ => ⟨0, [], ""⟩, fun _ => ⟨500, [], "oops"⟩⟩

/-- A Dispatcher with a single GET entry and a 405 fallback. -/
def getOnlyDispatcher : Dispatcher :=
  ⟨[("GET", fun _ => ⟨200, [], "made it to a handler"⟩)],
   fun _ => ⟨405, [], "method not allowed"⟩⟩

/-- An ErrHandler whose wrapped producer returns status 3 with the error
boom, and whose error callback is configured. -/
def boomErrHandler : ErrHandler :=
  ⟨fun _ => (⟨3, [], "resp"⟩, some "boom"), some fun _ _ => ()⟩

/-- An ErrHandler whose wrapped producer returns a zero-status response
with the error boom, and whose error callback is nil. -/
def nilOnErrHandler : ErrHandler := ⟨fun _ => (⟨0, [], ""⟩, some "boom"), none⟩

/-- Adding all values of one header name only appends to the header log;
the committed status and the written body are untouched. -/
theorem addValues_eq (k : String) (vs : List String) (w : ResponseWriter) :
    addValues k vs w =
      ⟨w.headerLog ++ vs.map (fun v => (k, v)), w.committedStatus, w.writtenBody⟩ := by
  induction vs generalizing w with
  | nil => simp [addValues]
  | cons v vs ih => simp [addValues, ih, ResponseWriter.headerAdd]

/-- Adding a whole header map only appends its unrolled name/value pairs to
the header log; the committed status and the written body are untouched. -/
theorem addHeaders_eq (hs : List (String × List String)) (w : ResponseWriter) :
    addHeaders hs w =
      ⟨w.headerLog ++ flatPairs hs, w.committedStatus, w.writtenBody⟩ := by
  induction hs generalizing w with
  | nil => simp [addHeaders, flatPairs]
  | cons p hs ih => simp [addHeaders, flatPairs, ih, addValues_eq]

/-- The values recorded for a name in a concatenation of logs are the
values of the parts, in order. -/
theorem valuesFor_append (n : String) (l1 l2 : List (String × String)) :
    valuesFor n (l1 ++ l2) = valuesFor n l1 ++ valuesFor n l2 := by
  simp [valuesFor, List.filter_append]

/-- Committing the status line does not change the header log. -/
theorem writeHeader_headerLog (w : ResponseWriter) (c : Int) :
    (w.writeHeader c).headerLog = w.headerLog := by
  cases h : w.committedStatus <;> simp [ResponseWriter.writeHeader, h]

/-- Writing the body does not change the header log, whatever the write
outcome. -/
theorem write_headerLog (w : ResponseWriter) (b : String) (o : Option Err) :
    ((w.write b o).1).headerLog = w.headerLog := by
  cases o <;> simp [ResponseWriter.write]

/-- C3: for every request and every pair of configured producers in a
DefaultResp, if the primary presenter's response has status code 0 the
result equals the default presenter's output exactly, and if the status
code is non-zero the result equals the primary presenter's output
unchanged. -/
theorem defaultResp_fallback (d : DefaultResp) (r : Request) :
    ((d.Presenter r).StatusCode = 0 → d.PresentHTTP r = d.DefaultPresenter r) ∧
    ((d.Presenter r).StatusCode ≠ 0 → d.PresentHTTP r = d.Presenter r) := by
  unfold DefaultResp.PresentHTTP
  exact ⟨fun h => by simp [h], fun h => by simp [h]⟩

/-- C3 witness: the zero-status primary presenter is overridden by the 500
oops default presenter. -/
theorem defaultResp_fallback_witness :
    (zeroThenOops.Presenter getReq).StatusCode = 0 ∧
    zeroThenOops.PresentHTTP getReq = ⟨500, [], "oops"⟩ :=
  ⟨rfl, (defaultResp_fallback zeroThenOops getReq).1 rfl⟩

/-- C4: for every request whose method is present (exact string match) in
the Dispatcher mapping the result equals that entry's presenter output; for
every other method, and in particular always under an empty mapping, the
result equals the configured not-supported presenter's output, and no error
arises. -/
theorem dispatcher_method_dispatch (d : Dispatcher) (r : Request) :
    (∀ p, d.MethodToPresenter.lookup r.method = some p → d.PresentHTTP r = p r) ∧
    (d.MethodToPresenter.lookup r.method = none →
      d.PresentHTTP r = d.MethodNotSupportedPres r) ∧
    (d.MethodToPresenter = [] → d.PresentHTTP r = d.MethodNotSupportedPres r) := by
  unfold Dispatcher.PresentHTTP
  exact ⟨fun p hp => by simp [hp], fun hn => by simp [hn], fun he => by simp [he]⟩

/-- C4 witness: the GET entry answers the GET request, and the lower-case
method get misses the mapping (case-sensitive lookup) and lands on the 405
presenter. -/
theorem dispatcher_method_dispatch_witness :
    getOnlyDispatcher.PresentHTTP getReq = ⟨200, [], "made it to a handler"⟩ ∧
    getOnlyDispatcher.PresentHTTP lowerGetReq = ⟨405, [], "method not allowed"⟩ :=
  ⟨(dispatcher_method_dispatch getOnlyDispatcher getReq).1 _ rfl,
   (dispatcher_method_dispatch getOnlyDispatcher lowerGetReq).2.1 rfl⟩

/-- C5: for every request and ErrHandler invocation, when the wrapped
ErrPresenter returns a nil error the error callback is never invoked (empty
invocation trace); when it returns a present error and the callback is
configured, the callback is invoked exactly once, with that same request
and that same error value. -/
theorem errHandler_callback_invocations (e : ErrHandler) (r : Request) :
    ((e.ErrPresenter r).2 = none →
      e.PresentHTTP r = Except.ok ((e.ErrPresenter r).1, [])) ∧
    (∀ err f, (e.ErrPresenter r).2 = some err → e.OnErrFn = some f →
      e.PresentHTTP r = Except.ok ((e.ErrPresenter r).1, [(r, err)])) := by
  unfold ErrHandler.PresentHTTP
  exact ⟨fun h => by simp [h], fun err f h hf => by simp [h, hf]⟩

/-- C5 witness: the producer returns the error boom and the callback trace
holds exactly one invocation carrying the same request and error. -/
theorem errHandler_callback_invocations_witness :
    boomErrHandler.PresentHTTP getReq =
      Except.ok (⟨3, [], "resp"⟩, [(getReq, "boom")]) :=
  (errHandler_callback_invocations boomErrHandler getReq).2 "boom" _ rfl rfl

/-- C10: whenever ErrHandler.PresentHTTP completes normally it returns
exactly the Response the wrapped ErrPresenter returned, with any status
code and whether or not an error was present; it never substitutes another
producer's output. -/
theorem errHandler_returns_producer_response (e : ErrHandler) (r : Request)
    (res : Response) (tr : List (Request × Err))
    (hok : e.PresentHTTP r = Except.ok (res, tr)) :
    res = (e.ErrPresenter r).1 := by
  unfold ErrHandler.PresentHTTP at hok
  cases h2 : (e.ErrPresenter r).2 with
  | none =>
      simp [h2] at hok
      exact hok.1.symm
  | some err =>
      cases hf : e.OnErrFn with
      | none => simp [h2, hf] at hok
      | some f =>
          simp [h2, hf] at hok
          exact hok.1.symm

/-- C10 witness: the wrapped producer answers status 3 with an error, and
the returned response is that same status 3 response. -/
theorem errHandler_returns_producer_response_witness :
    (⟨3, [], "resp"⟩ : Response) = (boomErrHandler.ErrPresenter getReq).1 :=
  errHandler_returns_producer_response boomErrHandler getReq
    ⟨3, [], "resp"⟩ [(getReq, "boom")] rfl

/-- C1: for every request and every outcome of the spec's ErrorAdapter
(modelled from the spec, see ErrorAdapter): when the wrapped fallible
producer's response has non-zero status that exact response is returned,
error or not; when the status is zero and a fallback producer is
configured the fallback producer's output is returned; when the status is
zero and no fallback is configured the zero-status response is returned
unchanged. -/
theorem errorAdapter_precedence (e : ErrorAdapter) (r : Request) :
    ((e.ErrPresenter r).1.StatusCode ≠ 0 →
      (e.PresentHTTP r).1 = (e.ErrPresenter r).1) ∧
    ((e.ErrPresenter r).1.StatusCode = 0 → ∀ p, e.DefaultPres = some p →
      (e.PresentHTTP r).1 = p r) ∧
    ((e.ErrPresenter r).1.StatusCode = 0 → e.DefaultPres = none →
      (e.PresentHTTP r).1 = (e.ErrPresenter r).1) := by
  unfold ErrorAdapter.PresentHTTP
  exact ⟨fun h => by simp [h],
         fun h p hp => by simp [h, hp],
         fun h hp => by simp [h, hp]⟩

/-- C1 witness: the spec scenario. The wrapped producer returns the
zero-status empty response together with the error boom and the fallback
answers 500 oops: the final response is 500 oops and the error callback
was invoked once with the request and the error boom. -/
theorem errorAdapter_precedence_witness :
    (boomAdapter.PresentHTTP getReq).1 = ⟨500, [], "oops"⟩ ∧
    (boomAdapter.PresentHTTP getReq).2 = [(getReq, "boom")] :=
  ⟨(errorAdapter_precedence boomAdapter getReq).2.1 rfl _ rfl, rfl⟩

/-- C2 counterexample: a Writer whose WriteFailedFn is nil does not drop a
failed body write silently; ServeHTTP reaches a call of the nil callback
and panics instead of completing. -/
theorem writer_nil_callback_failed_write_panics :
    hiWriter.ServeHTTP ResponseWriter.init getReq (some "connection closed") =
      Except.error GoPanic.nilFunctionCall := rfl

/-- C2 amended: for every request served by a Writer whose write-failure
callback is nil, a failing body write makes ServeHTTP call the nil
callback and panic; the serve operation completes normally (with no
callback invocation) exactly when the body write succeeds. -/
theorem writer_nil_callback_behavior (h : Writer) (w : ResponseWriter) (r : Request)
    (hnil : h.WriteFailedFn = none) :
    (∀ e, h.ServeHTTP w r (some e) = Except.error GoPanic.nilFunctionCall) ∧
    (∃ s, h.ServeHTTP w r none = Except.ok (s, [])) := by
  constructor
  · intro e
    simp [Writer.ServeHTTP, ResponseWriter.write, hnil]
  · exact ⟨_, rfl⟩

/-- C2 amended witness: the nil-callback Writer panics on a failed write. -/
theorem writer_nil_callback_behavior_witness :
    hiWriter.WriteFailedFn = none ∧
    hiWriter.ServeHTTP ResponseWriter.init getReq (some "connection closed") =
      Except.error GoPanic.nilFunctionCall :=
  ⟨rfl, (writer_nil_callback_behavior hiWriter ResponseWriter.init getReq rfl).1
    "connection closed"⟩

/-- C6: for every request served on a fresh outbound channel by a Writer
whose producer returns a zero-status response, when the serve completes
the committed status is 200 (substituted before the status line is
written) and the written body equals the producer's body. -/
theorem writer_zero_status_default_200 (h : Writer) (r : Request)
    (s : ResponseWriter) (tr : List (Request × Err))
    (h0 : (h.Presenter r).StatusCode = 0)
    (hok : h.ServeHTTP ResponseWriter.init r none = Except.ok (s, tr)) :
    s.committedStatus = some 200 ∧ s.writtenBody = (h.Presenter r).Body := by
  have hstep : h.ServeHTTP ResponseWriter.init r none =
      Except.ok ((((addHeaders (h.Presenter r).Headers ResponseWriter.init).writeHeader
        (if (h.Presenter r).StatusCode = 0 then 200 else (h.Presenter r).StatusCode)).write
        (h.Presenter r).Body none).1, []) := rfl
  rw [hstep] at hok
  simp only [Except.ok.injEq, Prod.mk.injEq] at hok
  obtain ⟨hs, -⟩ := hok
  subst hs
  rw [addHeaders_eq]
  simp [ResponseWriter.write, ResponseWriter.writeHeader, ResponseWriter.init, h0]

/-- C6 witness: the Writer over the zero-status hi producer commits status
200 and writes body hi on a fresh outbound channel. -/
theorem writer_zero_status_default_200_witness :
    (⟨[], some 200, "hi"⟩ : ResponseWriter).committedStatus = some 200 ∧
    (⟨[], some 200, "hi"⟩ : ResponseWriter).writtenBody = "hi" :=
  writer_zero_status_default_200 hiWriter getReq ⟨[], some 200, "hi"⟩ [] rfl rfl

/-- C7: whenever a serve completes, the outbound channel's header log is
the incoming log extended by every name/value pair of the producer's
response headers, each value appended separately: for every header name,
the recorded value sequence is the previously recorded one followed by all
of that name's response values in order. -/
theorem writer_header_multiplicity (h : Writer) (w : ResponseWriter) (r : Request)
    (o : Option Err) (s : ResponseWriter) (tr : List (Request × Err)) (name : String)
    (hok : h.ServeHTTP w r o = Except.ok (s, tr)) :
    valuesFor name s.headerLog =
      valuesFor name w.headerLog ++ valuesFor name (flatPairs (h.Presenter r).Headers) := by
  have hlog : s.headerLog = w.headerLog ++ flatPairs (h.Presenter r).Headers := by
    cases o with
    | none =>
        have hstep : h.ServeHTTP w r none =
            Except.ok ((((addHeaders (h.Presenter r).Headers w).writeHeader
              (if (h.Presenter r).StatusCode = 0 then 200
               else (h.Presenter r).StatusCode)).write
              (h.Presenter r).Body none).1, []) := rfl
        rw [hstep] at hok
        simp only [Except.ok.injEq, Prod.mk.injEq] at hok
        obtain ⟨hs, -⟩ := hok
        subst hs
        rw [write_headerLog, writeHeader_headerLog, addHeaders_eq]
    | some e =>
        cases hcb : h.WriteFailedFn with
        | none => simp [Writer.ServeHTTP, ResponseWriter.write, hcb] at hok
        | some f =>
            simp only [Writer.ServeHTTP, ResponseWriter.write, hcb] at hok
            simp only [Except.ok.injEq, Prod.mk.injEq] at hok
            obtain ⟨hs, -⟩ := hok
            subst hs
            rw [writeHeader_headerLog, addHeaders_eq]
  rw [hlog, valuesFor_append]

/-- C7 witness: a response with header X carrying the values a and b
leaves the outbound channel recording the separate values a then b for X,
not one concatenated or overwritten value. -/
theorem writer_header_multiplicity_witness :
    valuesFor "X" ([("X", "a"), ("X", "b")] : List (String × String)) =
      valuesFor "X" ResponseWriter.init.headerLog ++
        valuesFor "X" (flatPairs (xHeaderWriter.Presenter getReq).Headers) ∧
    valuesFor "X" ([("X", "a"), ("X", "b")] : List (String × String)) = ["a", "b"] :=
  ⟨writer_header_multiplicity xHeaderWriter ResponseWriter.init getReq none
      ⟨[("X", "a"), ("X", "b")], some 200, ""⟩ [] "X" rfl, rfl⟩

/-- C8: the components are stateless configuration values (Go value
receivers, no mutable fields), so the embedding of every producer built
from them is a pure function of the configuration and the request: two
invocations on equal requests with unchanged configuration yield equal
results, for a Dispatcher, a DefaultResp, an ErrHandler (result and
callback trace alike) and the composed tower the package example builds. -/
theorem producers_two_run_deterministic (d : Dispatcher) (df : DefaultResp)
    (e : ErrHandler) (m : List (String × Httphandler.Presenter))
    (notSup defP : Httphandler.Presenter) (r r2 : Request) (heq : r = r2) :
    d.PresentHTTP r = d.PresentHTTP r2 ∧
    df.PresentHTTP r = df.PresentHTTP r2 ∧
    e.PresentHTTP r = e.PresentHTTP r2 ∧
    newHandlerTower m notSup defP r = newHandlerTower m notSup defP r2 := by
  subst heq
  exact ⟨rfl, rfl, rfl, rfl⟩

/-- C8 witness: two invocations with the same GET request agree on the
sample dispatcher, fallback, error handler and composed tower. -/
theorem producers_two_run_deterministic_witness :
    getOnlyDispatcher.PresentHTTP getReq = getOnlyDispatcher.PresentHTTP getReq ∧
    zeroThenOops.PresentHTTP getReq = zeroThenOops.PresentHTTP getReq ∧
    boomErrHandler.PresentHTTP getReq = boomErrHandler.PresentHTTP getReq ∧
    newHandlerTower [] (fun _ => ⟨405, [], ""⟩) (fun _ => ⟨500, [], ""⟩) getReq =
      newHandlerTower [] (fun _ => ⟨405, [], ""⟩) (fun _ => ⟨500, [], ""⟩) getReq :=
  producers_two_run_deterministic getOnlyDispatcher zeroThenOops boomErrHandler
    [] (fun _ => ⟨405, [], ""⟩) (fun _ => ⟨500, [], ""⟩) getReq getReq rfl

/-- C9 counterexample: an ErrHandler whose OnErrFn is nil is not a no-op
on a present error; PresentHTTP reaches a call of the nil callback and
panics instead of returning the producer's response. -/
theorem errHandler_nil_onerr_panics :
    nilOnErrHandler.PresentHTTP getReq = Except.error GoPanic.nilFunctionCall := rfl

/-- C9 amended: for every ErrHandler whose OnErrFn is nil, an invocation
on a request for which the wrapped producer returns a present error calls
the nil callback and panics; the invocation completes normally, returning
the producer's response, exactly when the error is absent. -/
theorem errHandler_nil_onerr_behavior (e : ErrHandler) (r : Request)
    (hnil : e.OnErrFn = none) :
    (∀ err, (e.ErrPresenter r).2 = some err →
      e.PresentHTTP r = Except.error GoPanic.nilFunctionCall) ∧
    ((e.ErrPresenter r).2 = none →
      e.PresentHTTP r = Except.ok ((e.ErrPresenter r).1, [])) := by
  unfold ErrHandler.PresentHTTP
  exact ⟨fun err h => by simp [h, hnil], fun h => by simp [h]⟩

/-- C9 amended witness: the nil-callback ErrHandler panics when its
producer reports the error boom. -/
theorem errHandler_nil_onerr_behavior_witness :
    nilOnErrHandler.OnErrFn = none ∧
    nilOnErrHandler.PresentHTTP getReq = Except.error GoPanic.nilFunctionCall :=
  ⟨rfl, (errHandler_nil_onerr_behavior nilOnErrHandler getReq rfl).1 "boom" rfl⟩

end Httphandler
